import Mathlib

/-!
Verification of the weekly statistics and goal-alignment engine of a
nutrition-tracking application.

The development shallowly embeds the TypeScript sources:
* `src/utils/date-helpers.ts` — the 3 AM day-boundary calendar;
* `src/utils/weekly-stats.ts` — week-start resolution and the weekly stats engine;
* `src/components/Totals.tsx` — the daily-totals calorie classifier;
* `src/app/(tabs)/analytics.tsx` — the admin-grid calorie classifier and the
  week navigation;
* the dashboard screen — its local `getTodayDate` and week navigation.

JavaScript numbers are embedded as rationals (`ℚ`); where the code can divide
by zero, the IEEE outcomes (`Infinity`, `-Infinity`, `NaN`) are made explicit
through the small `JsVal` type, so every division in the embedding means
exactly what the JavaScript means.
-/

/-! ## JavaScript number semantics for the operations the classifiers use -/

/-- Result of a JavaScript floating-point computation, as far as the embedded
code needs it: a finite value (kept exact as a rational), `Infinity`,
`-Infinity`, or `NaN`. -/
inductive JsVal where
  | fin (q : ℚ)
  | posInf
  | negInf
  | nan
deriving DecidableEq

/-- JavaScript division `a / b`: finite quotient when `b ≠ 0`, otherwise
`±Infinity` (sign of `a`) or `NaN` when `0 / 0`. -/
def jsDiv (a b : ℚ) : JsVal :=
  if b = 0 then
    if a > 0 then .posInf else if a < 0 then .negInf else .nan
  else .fin (a / b)

/-- Multiplication of a JavaScript value by the positive constant 100. -/
def jsMul100 : JsVal → JsVal
  | .fin q => .fin (q * 100)
  | .posInf => .posInf
  | .negInf => .negInf
  | .nan => .nan

/-- JavaScript `Math.abs`. -/
def jsAbs : JsVal → JsVal
  | .fin q => .fin |q|
  | .posInf => .posInf
  | .negInf => .posInf
  | .nan => .nan

/-- JavaScript comparison `v <= c` against a finite constant: `false` for
`Infinity` and `NaN`, `true` for `-Infinity`. -/
def jsLe (v : JsVal) (c : ℚ) : Bool :=
  match v with
  | .fin q => decide (q ≤ c)
  | .posInf => false
  | .negInf => true
  | .nan => false

/-! ## Adherence tiers (specification side)

The spec (§4.5) names five ordinal tiers.  Each display site renders a tier
as a fixed color/CSS-class string; the two palettes below are read off the
two call sites. -/

/-- The spec's adherence tiers. -/
inductive Tier where
  | on_track
  | close
  | needs_work
  | off_track
  | no_data
deriving DecidableEq

/-- The hex palette of the daily totals widget (`Totals.tsx`). -/
def tierHex : Tier → String
  | .on_track => "#10A37F"
  | .close => "#F59E0B"
  | .needs_work => "#F97316"
  | .off_track => "#EF4444"
  | .no_data => "#9CA3AF"

/-- The CSS-class palette of the admin per-day grid (`analytics.tsx`). -/
def tierClass : Tier → String
  | .on_track => "bg-green-100 text-green-700"
  | .close => "bg-yellow-100 text-yellow-700"
  | .needs_work => "bg-orange-100 text-orange-700"
  | .off_track => "bg-red-100 text-red-700"
  | .no_data => "bg-gray-100 text-gray-500"

/-- Specification-side calorie classifier, written from the spec's words
(§4.5 steps 1–5): signed `diff`, `percentDiff`, alignment with the goal
direction, then the gradual band when aligned and the strict band otherwise. -/
def specClassifyCalories (measured target maintenance : ℚ) : Tier :=
  let diff := measured - target
  let percentDiff := diff / target * 100
  let isAligned := (target < maintenance ∧ diff < 0) ∨ (target > maintenance ∧ diff > 0)
  if isAligned then
    if |percentDiff| ≤ 10 then .on_track
    else if |percentDiff| ≤ 20 then .close
    else if |percentDiff| ≤ 30 then .needs_work
    else .off_track
  else
    if |percentDiff| ≤ 5 then .on_track
    else .off_track

namespace Totals

/-- Embedding of `getCalorieColor` from `src/components/Totals.tsx`.  `totalsCalories` is
the closure's `totals.calories`; `maintenanceCalories` is the component's
optional prop, so `Option ℚ`, and the JavaScript falsiness test
`!maintenanceCalories` holds for `undefined` and for `0`
(`maintenanceCalories.getD 0 = 0`). -/
def getCalorieColor (totalsCalories targetCalories : ℚ)
    (maintenanceCalories : Option ℚ) : String :=
  if totalsCalories = 0 then "#9CA3AF"
  else if targetCalories = 0 then "#9CA3AF"
  else if maintenanceCalories.getD 0 = 0 then
    let percentOfTarget := totalsCalories / targetCalories * 100
    if percentOfTarget > 100 then "#EF4444"
    else if percentOfTarget > 90 then "#F59E0B"
    else "#10A37F"
  else
    let mc := maintenanceCalories.getD 0
    let isDeficit := targetCalories < mc
    let isSurplus := targetCalories > mc
    let diff := totalsCalories - targetCalories
    let percentDiff := diff / targetCalories * 100
    let isAligned := (isDeficit ∧ diff < 0) ∨ (isSurplus ∧ diff > 0)
    if isAligned then
      if |percentDiff| ≤ 10 then "#10A37F"
      else if |percentDiff| ≤ 20 then "#F59E0B"
      else if |percentDiff| ≤ 30 then "#F97316"
      else "#EF4444"
    else
      if |percentDiff| ≤ 5 then "#10A37F"
      else "#EF4444"

end Totals

namespace Analytics

/-- Embedding of `getCaloriesColor` from `src/app/(tabs)/analytics.tsx` (admin per-user
per-day grid).  Note the source has no `target == 0` guard, so the division
`diff / target` follows JavaScript semantics (`JsVal`). -/
def getCaloriesColor (calories target maintenance : ℚ) : String :=
  if calories = 0 then "bg-gray-100 text-gray-500"
  else
    let isDeficit := target < maintenance
    let isSurplus := target > maintenance
    let diff := calories - target
    let percentDiff := jsMul100 (jsDiv diff target)
    let isAligned := (isDeficit ∧ diff < 0) ∨ (isSurplus ∧ diff > 0)
    if isAligned then
      let absDiff := jsAbs percentDiff
      if jsLe absDiff 10 then "bg-green-100 text-green-700"
      else if jsLe absDiff 20 then "bg-yellow-100 text-yellow-700"
      else if jsLe absDiff 30 then "bg-orange-100 text-orange-700"
      else "bg-red-100 text-red-700"
    else
      let absDiff := jsAbs percentDiff
      if jsLe absDiff 5 then "bg-green-100 text-green-700"
      else "bg-red-100 text-red-700"

end Analytics

/-! ## Day-boundary calendar (`src/utils/date-helpers.ts`), claim C5

A JavaScript `Date` is embedded through its local civil components, the only
view the code reads (`getFullYear`, `getMonth`, `getDate`, `getHours`). -/

/-- A JavaScript `Date`, seen through its local components.  `month` is the
1-based month (`getMonth() + 1`); `day` is `getDate()`; `hour` is
`getHours()`.  Minutes and smaller units are never read by the code. -/
structure LocalDate where
  year : ℤ
  month : ℤ
  day : ℤ
  hour : ℤ
deriving DecidableEq

/-- Gregorian leap-year rule (the rule JavaScript `Date` follows). -/
def isLeapYear (y : ℤ) : Bool :=
  y % 4 = 0 ∧ (y % 100 ≠ 0 ∨ y % 400 = 0)

/-- Number of days in month `m` (1-based) of year `y`. -/
def monthLength (y m : ℤ) : ℤ :=
  if m = 2 then (if isLeapYear y then 29 else 28)
  else if m = 4 ∨ m = 6 ∨ m = 9 ∨ m = 11 then 30
  else 31

/-- The local components are a real calendar date and the hour is a clock
hour. -/
def LocalDate.Valid (d : LocalDate) : Prop :=
  1 ≤ d.month ∧ d.month ≤ 12 ∧ 1 ≤ d.day ∧ d.day ≤ monthLength d.year d.month ∧
    0 ≤ d.hour ∧ d.hour ≤ 23

instance (d : LocalDate) : Decidable d.Valid := by
  unfold LocalDate.Valid
  infer_instance

/-- JavaScript `Date.prototype.setDate` for the arguments the code passes
(`0 ≤ n ≤ days-in-month`): day `n` of the current month, where day `0`
normalizes to the last day of the previous month (rolling the year back when
the month is January). -/
def jsSetDate (d : LocalDate) (n : ℤ) : LocalDate :=
  if 1 ≤ n then { d with day := n }
  else if d.month = 1 then { d with year := d.year - 1, month := 12, day := 31 }
  else { d with month := d.month - 1, day := monthLength d.year (d.month - 1) }

/-- Embedding of `String(n).padStart(2, '0')` for the month/day components. -/
def pad2 (n : ℤ) : String :=
  if n < 10 then "0" ++ toString n else toString n

/-- Embedding of `formatDateToString` from `src/utils/date-helpers.ts`: local year, then
zero-padded 1-based month and day, joined with dashes. -/
def formatDateToString (d : LocalDate) : String :=
  toString d.year ++ "-" ++ pad2 d.month ++ "-" ++ pad2 d.day

/-- Embedding of `getAppDate` from `src/utils/date-helpers.ts`: when the local hour is
below 3, format a copy of the date moved to `getDate() - 1` via `setDate`;
otherwise format the date itself. -/
def getAppDate (d : LocalDate) : String :=
  if d.hour < 3 then formatDateToString (jsSetDate d (d.day - 1))
  else formatDateToString d

/-- Specification-side "calendar date minus one day": decrement the day,
rolling into the last day of the previous month and, from January 1, into
December 31 of the prior year. -/
def prevCivilDay (d : LocalDate) : LocalDate :=
  if 1 < d.day then { d with day := d.day - 1 }
  else if 1 < d.month then { d with month := d.month - 1, day := monthLength d.year (d.month - 1) }
  else { d with year := d.year - 1, month := 12, day := 31 }

/-! ## Week window resolver (`src/utils/weekly-stats.ts`), claim C8

For week arithmetic a JavaScript `Date` is embedded through its day-number
view: local whole days since the epoch (1970-01-01, a Thursday) plus the
local time of day in milliseconds. -/

/-- A JavaScript `Date` as local days since 1970-01-01 plus the local time
of day in milliseconds. -/
structure JsDate where
  days : ℤ
  msOfDay : ℤ
deriving DecidableEq

/-- JavaScript `Date.prototype.getDay`: day of week, 0 = Sunday … 6 =
Saturday.  1970-01-01 was a Thursday (4). -/
def jsGetDay (d : JsDate) : ℤ :=
  (d.days + 4) % 7

/-- Modelled from the spec: the repository delegates `getWeekStart` to the
date-fns library's `startOfWeek` with `weekStartsOn: 1`, which is not part of
this repository.  Per the library's documented behavior (spec §4.2: "the
Monday ≤ `date`, same or earlier calendar date, with time reset to
midnight") it moves the date back by `(7 + getDay() − 1) mod 7` days and
clears the time of day. -/
def startOfWeek (d : JsDate) : JsDate :=
  ⟨d.days - (7 + jsGetDay d - 1) % 7, 0⟩

/-- Embedding of `getWeekStart` from `src/utils/weekly-stats.ts` (the `Date` branch of
its `Date | string` argument). -/
def getWeekStart (d : JsDate) : JsDate :=
  startOfWeek d

/-! ## Rendering a day number as a local `YYYY-MM-DD` string

`format(date, 'yyyy-MM-dd')` on a `Date`, as used by `weekly-stats.ts` and
the navigation code, reads the local civil components of the day number. -/

/-- Gregorian civil date `(year, month, day)` of a day number (days since
1970-01-01), by the standard era decomposition into 400-year cycles. -/
def civilFromDays (z : ℤ) : ℤ × ℤ × ℤ :=
  let z' := z + 719468
  let era := z'.ediv 146097
  let doe := z'.emod 146097
  let yoe := (doe - doe.ediv 1460 + doe.ediv 36524 - doe.ediv 146096).ediv 365
  let y := yoe + era * 400
  let doy := doe - (365 * yoe + yoe.ediv 4 - yoe.ediv 100)
  let mp := (5 * doy + 2).ediv 153
  let d := doy - (153 * mp + 2).ediv 5 + 1
  let m := mp + (if mp < 10 then 3 else -9)
  (y + (if m ≤ 2 then 1 else 0), m, d)

/-- A year zero-padded to four digits, as date-fns `yyyy` renders it. -/
def pad4 (n : ℤ) : String :=
  if n < 10 then "000" ++ toString n
  else if n < 100 then "00" ++ toString n
  else if n < 1000 then "0" ++ toString n
  else toString n

/-- Rendering `format(date, 'yyyy-MM-dd')` of the `Date` holding local day number
`days`. -/
def formatYMD (days : ℤ) : String :=
  match civilFromDays days with
  | (y, m, d) => pad4 y ++ "-" ++ pad2 m ++ "-" ++ pad2 d

/-- JavaScript `<` on strings compares code units left to right; on the
strings the code compares (ASCII `YYYY-MM-DD` dates) that is lexicographic
order on the character list. -/
def jsStrLt (a b : String) : Bool :=
  decide (a.data < b.data)

/-! ## Weekly stats engine (`src/utils/weekly-stats.ts`),
claims C1, C4, C6, C9, C10 -/

/-- A food-log entry, restricted to the fields the engine reads.  `calories`
and `protein` can be `null`/`undefined` in the row type, hence `Option`;
the engine's `entry.calories || 0` reads them with default 0. -/
structure FoodEntry where
  calories : Option ℚ
  protein : Option ℚ
deriving DecidableEq

/-- One day's aggregate (`DayData` in `src/types`). -/
structure DayData where
  date : String
  calories : ℚ
  protein : ℚ
  entries : List FoodEntry
deriving DecidableEq

/-- The `averages` record of `WeeklyStats`. -/
structure Averages where
  calories : ℚ
  protein : ℚ
deriving DecidableEq

/-- The `deficit` record of `WeeklyStats`. -/
structure Deficit where
  daily : ℚ
  weekly : ℚ
deriving DecidableEq

/-- The engine's output record. -/
structure WeeklyStats where
  dailyData : List DayData
  averages : Averages
  deficit : Deficit
  daysLogged : ℕ
deriving DecidableEq

/-- The `entries.reduce` of `getWeeklyStats`: sum calories and protein,
reading a missing value as 0 (`entry.calories || 0`). -/
def dayTotals (entries : List FoodEntry) : ℚ × ℚ :=
  entries.foldl
    (fun acc entry => (acc.1 + entry.calories.getD 0, acc.2 + entry.protein.getD 0))
    (0, 0)

/-- The 7-iteration loop of `getWeeklyStats`: for day `i` of the week
(Monday-start day number `weekStart`), format the date, look it up in the
fetched mapping (absent dates read as the empty list), and aggregate. -/
def buildDailyData (weekStart : ℤ)
    (allData : String → Option (List FoodEntry)) : List DayData :=
  (List.range 7).map fun i : ℕ =>
    let dateStr := formatYMD (weekStart + (i : ℤ))
    let entries := (allData dateStr).getD []
    let totals := dayTotals entries
    { date := dateStr, calories := totals.1, protein := totals.2, entries := entries }

/-- The `completedDaysWithFood` filter of `getWeeklyStats`:
`day.date < today && day.calories > 0`. -/
def completedDaysWithFood (weekStart : ℤ) (today : String)
    (allData : String → Option (List FoodEntry)) : List DayData :=
  (buildDailyData weekStart allData).filter fun day =>
    jsStrLt day.date today && decide (0 < day.calories)

/-- Embedding of `getWeeklyStats` from `src/utils/weekly-stats.ts`.  The asynchronous
collaborator call is embedded by passing its result: `allData` is the
mapping `getDataForRange(startDate, endDate)` resolved to (absent dates are
`none`); `today` is the `getAppDate()` reading of the system clock;
`weekStart` is the local day number of the `weekStart` argument. -/
def getWeeklyStats (weekStart : ℤ) (targetCalories maintenanceCalories : ℚ)
    (today : String) (allData : String → Option (List FoodEntry)) : WeeklyStats :=
  let dailyData := buildDailyData weekStart allData
  let daysLogged := dailyData.countP fun d => decide (0 < d.entries.length)
  let completed := completedDaysWithFood weekStart today allData
  let avgCaloriesTotal := completed.foldl (fun sum day => sum + day.calories) 0
  let avgProteinTotal := completed.foldl (fun sum day => sum + day.protein) 0
  let avgDaysCount := completed.length
  let avgCalories : ℚ :=
    if 0 < avgDaysCount then ((round (avgCaloriesTotal / (avgDaysCount : ℚ)) : ℤ) : ℚ) else 0
  let avgProtein : ℚ :=
    if 0 < avgDaysCount then ((round (avgProteinTotal / (avgDaysCount : ℚ)) : ℤ) : ℚ) else 0
  let dailyDeficit := avgCalories - maintenanceCalories
  let weeklyDeficit := if 0 < avgDaysCount then dailyDeficit * (avgDaysCount : ℚ) else 0
  { dailyData := dailyData
    averages := ⟨avgCalories, avgProtein⟩
    deficit := ⟨dailyDeficit, weeklyDeficit⟩
    daysLogged := daysLogged }

/-- A sample fetched mapping: one 1800-calorie, 100-gram entry on
January 2, 2024, nothing anywhere else. -/
def sampleWeekData : String → Option (List FoodEntry) :=
  fun s => if s = "2024-01-02" then some [⟨some 1800, some 100⟩] else none

/-! ## Week navigation (dashboard screen and `analytics.tsx`), claim C3 -/

/-- An instant: local day number and local minute of the day, in an
environment whose UTC offset is 0 (the navigation divergence below needs no
offset, and at offset 0 the UTC components read by `toISOString` coincide
with the local ones). -/
structure Instant where
  days : ℤ
  minuteOfDay : ℤ
deriving DecidableEq

/-- Applying `getWeekStart` to the midnight `Date` of a day number. -/
def startOfWeekDays (days : ℤ) : ℤ :=
  (getWeekStart ⟨days, 0⟩).days

/-- The dashboard screen's local `getTodayDate`:
`new Date().toISOString().split('T')[0]` — the calendar date of the
instant's UTC components, with no 3 AM cutoff; at offset 0 this is the
local day number unchanged. -/
def Dashboard.getTodayDate (t : Instant) : String :=
  formatYMD t.days

/-- Reading `getAppDate()` on an instant, in day numbers: before 03:00 local
(minute 180) the app date is the previous day, else the day itself
(`C5_getAppDate_cutoff` establishes that the civil-component computation in
`date-helpers.ts` equals this one-day shift). -/
def appDateDaysOf (t : Instant) : ℤ :=
  if t.minuteOfDay < 180 then t.days - 1 else t.days

/-- The week start of the app's current date under the 3 AM rule of §4.1 —
the bound the claim says every forward navigation must respect. -/
def ruleWeekBound (t : Instant) : ℤ :=
  startOfWeekDays (appDateDaysOf t)

/-- Embedding of `navigateWeek` from the dashboard screen: step the selected week start
by `direction * 7` days; on a forward step, compare the formatted new week
start against the formatted `getWeekStart(new Date(getTodayDate()))` and
keep the old state when it is greater (JavaScript `>` on the two date
strings is `jsStrLt` flipped).  `new Date` of a `YYYY-MM-DD` string is
midnight of that calendar date at offset 0, so the parsed day number of the
dashboard's `getTodayDate` string is `t.days`. -/
def Dashboard.navigateWeek (t : Instant) (weekStart : ℤ) (direction : ℤ) : ℤ :=
  let newWeekStart := weekStart + direction * 7
  if direction > 0 then
    let currentWeekStart := startOfWeekDays t.days
    if jsStrLt (formatYMD currentWeekStart) (formatYMD newWeekStart) then weekStart
    else newWeekStart
  else newWeekStart

/-- Embedding of `navigateWeek` from `analytics.tsx`: identical to the dashboard's,
except its `getTodayDate` is `getAppDate` (3 AM cutoff, local timezone). -/
def Analytics.navigateWeek (t : Instant) (weekStart : ℤ) (direction : ℤ) : ℤ :=
  let newWeekStart := weekStart + direction * 7
  if direction > 0 then
    let currentWeekStart := startOfWeekDays (appDateDaysOf t)
    if jsStrLt (formatYMD currentWeekStart) (formatYMD newWeekStart) then weekStart
    else newWeekStart
  else newWeekStart

/-! ## Theorems: helper lemmas, then the claims C1 through C10 -/

/-- The engine's date-string comparison is irreflexive: the current day is
never strictly before today. -/
theorem jsStrLt_self (s : String) : jsStrLt s s = false := by
  simp only [jsStrLt, decide_eq_false_iff_not]
  exact lt_irrefl _

/-- Shared helper: when the completed-and-nonzero filter is empty, both
averages are 0, the daily deficit is `-maintenanceCalories`, and the weekly
deficit is 0. -/
theorem getWeeklyStats_no_completed (weekStart : ℤ)
    (targetCalories maintenanceCalories : ℚ) (today : String)
    (allData : String → Option (List FoodEntry))
    (h : completedDaysWithFood weekStart today allData = []) :
    (getWeeklyStats weekStart targetCalories maintenanceCalories today allData).averages
        = ⟨0, 0⟩ ∧
    (getWeeklyStats weekStart targetCalories maintenanceCalories today allData).deficit
        = ⟨-maintenanceCalories, 0⟩ := by
  constructor <;> simp [getWeeklyStats, h]

/-- Shared helper: in the week of January 1–7, 2024 seen from January 5,
`sampleWeekData` has exactly one completed-and-nonzero day. -/
theorem sampleWeekData_completed_pos :
    0 < (completedDaysWithFood 19723 "2024-01-05" sampleWeekData).length := by
  have f0 : formatYMD 19723 = "2024-01-01" := rfl
  have f1 : formatYMD 19724 = "2024-01-02" := rfl
  have f2 : formatYMD 19725 = "2024-01-03" := rfl
  have f3 : formatYMD 19726 = "2024-01-04" := rfl
  have f4 : formatYMD 19727 = "2024-01-05" := rfl
  have f5 : formatYMD 19728 = "2024-01-06" := rfl
  have f6 : formatYMD 19729 = "2024-01-07" := rfl
  have g0 : (("2024-01-01" : String) = "2024-01-02") = False := eq_false (by decide)
  have g2 : (("2024-01-03" : String) = "2024-01-02") = False := eq_false (by decide)
  have g3 : (("2024-01-04" : String) = "2024-01-02") = False := eq_false (by decide)
  have g4 : (("2024-01-05" : String) = "2024-01-02") = False := eq_false (by decide)
  have g5 : (("2024-01-06" : String) = "2024-01-02") = False := eq_false (by decide)
  have g6 : (("2024-01-07" : String) = "2024-01-02") = False := eq_false (by decide)
  have t1 : ("2024-01-02" : String).data < ("2024-01-05" : String).data := by decide
  norm_num [completedDaysWithFood, buildDailyData, dayTotals, jsStrLt, sampleWeekData,
    show List.range 7 = [0, 1, 2, 3, 4, 5, 6] from rfl, f0, f1, f2, f3, f4, f5, f6,
    g0, g2, g3, g4, g5, g6, t1]

/-- C1 counterexample: the claim asserts `deficit.daily == 0` for a week
with no completed-and-nonzero day, but on the entirely empty week of
January 1–7, 2024 (today January 10, maintenance 2000) the code returns
`deficit.daily = 0 - 2000 = -2000`: the subtraction is not guarded by the
completed-day count. -/
theorem C1_counterexample :
    completedDaysWithFood 19723 "2024-01-10" (fun _ => none) = [] ∧
    (getWeeklyStats 19723 1800 2000 "2024-01-10" (fun _ => none)).deficit.daily = -2000 ∧
    (-2000 : ℚ) ≠ 0 := by
  have h : completedDaysWithFood 19723 "2024-01-10" (fun _ => none) = [] := by decide
  refine ⟨h, ?_, by norm_num⟩
  rw [(getWeeklyStats_no_completed 19723 1800 2000 "2024-01-10" (fun _ => none) h).2]

/-- C1 (amended): for a week with no day both strictly before today and
with positive summed calories, the engine returns `averages.calories = 0`,
`averages.protein = 0`, `deficit.weekly = 0`, and `deficit.daily =
-maintenanceCalories` (0 only when the maintenance setting is 0); every
field is a defined number. -/
theorem C1_amended (weekStart : ℤ) (targetCalories maintenanceCalories : ℚ)
    (today : String) (allData : String → Option (List FoodEntry))
    (h : completedDaysWithFood weekStart today allData = []) :
    (getWeeklyStats weekStart targetCalories maintenanceCalories today allData).averages.calories = 0 ∧
    (getWeeklyStats weekStart targetCalories maintenanceCalories today allData).averages.protein = 0 ∧
    (getWeeklyStats weekStart targetCalories maintenanceCalories today allData).deficit.daily
        = -maintenanceCalories ∧
    (getWeeklyStats weekStart targetCalories maintenanceCalories today allData).deficit.weekly = 0 := by
  obtain ⟨ha, hd⟩ :=
    getWeeklyStats_no_completed weekStart targetCalories maintenanceCalories today allData h
  rw [ha, hd]
  exact ⟨rfl, rfl, rfl, rfl⟩

/-- C1 (amended) witness: the empty week of January 1–7, 2024 with
maintenance 2000. -/
theorem C1_amended_witness :
    (getWeeklyStats 19723 1800 2000 "2024-01-10" (fun _ => none)).averages.calories = 0 ∧
    (getWeeklyStats 19723 1800 2000 "2024-01-10" (fun _ => none)).averages.protein = 0 ∧
    (getWeeklyStats 19723 1800 2000 "2024-01-10" (fun _ => none)).deficit.daily = -2000 ∧
    (getWeeklyStats 19723 1800 2000 "2024-01-10" (fun _ => none)).deficit.weekly = 0 :=
  C1_amended 19723 1800 2000 "2024-01-10" (fun _ => none) (by decide)

/-! ## Claims C2 and C7 — the calorie classifier -/

/-- C2: the claim asserts that `measured == 0`, `target == 0` (and
`maintenance == 0`) yield the neutral `no_data` tier at every display site,
including the admin per-user per-day grid.  The code violates this: the admin
grid's `getCaloriesColor` has no `target == 0` guard, so for
`calories = 1500, target = 0, maintenance = 2000` the JavaScript division by
zero makes `percentDiff = Infinity` and the strict band returns the red
class, while the totals widget returns the neutral gray at the same input. -/
theorem C2_code_eval :
    Analytics.getCaloriesColor 1500 0 2000 = "bg-red-100 text-red-700" ∧
    Totals.getCalorieColor 1500 0 (some 2000) = "#9CA3AF" ∧
    "bg-red-100 text-red-700" ≠ tierClass Tier.no_data ∧
    tierClass Tier.no_data = "bg-gray-100 text-gray-500" := by
  refine ⟨?_, ?_, by decide, rfl⟩
  · norm_num [Analytics.getCaloriesColor, jsDiv, jsMul100, jsAbs, jsLe]
  · norm_num [Totals.getCalorieColor]

/-- C7 counterexample: the claim, quantified over every `maintenance`,
fails at the totals widget when `maintenance = 0`: there the JavaScript
falsiness check `!maintenanceCalories` routes `measured = 55, target = 50,
maintenance = 0` to the percent-of-target fallback (red), although the
claim's band rule (surplus goal, aligned, `|percentDiff| = 10 ≤ 10`)
demands the `on_track` green. -/
theorem C7_counterexample :
    specClassifyCalories 55 50 0 = Tier.on_track ∧
    Totals.getCalorieColor 55 50 (some 0) = "#EF4444" ∧
    tierHex Tier.on_track = "#10A37F" ∧
    "#EF4444" ≠ "#10A37F" := by
  refine ⟨?_, ?_, rfl, by decide⟩
  · norm_num [specClassifyCalories]
  · norm_num [Totals.getCalorieColor]

/-- C7 (amended): for `measured > 0` and `target > 0` the admin-grid
classifier follows the claimed aligned-gradual / otherwise-strict band rule
for every `maintenance`, and the totals-widget classifier follows it for
every provided nonzero `maintenance` (a zero or absent maintenance falls
back to a simple percent-of-target scheme there). -/
theorem C7_amended (measured target maintenance : ℚ)
    (hm : 0 < measured) (ht : 0 < target) :
    Analytics.getCaloriesColor measured target maintenance
      = tierClass (specClassifyCalories measured target maintenance) ∧
    (maintenance ≠ 0 →
      Totals.getCalorieColor measured target (some maintenance)
        = tierHex (specClassifyCalories measured target maintenance)) := by
  have hm0 : measured ≠ 0 := ne_of_gt hm
  have ht0 : target ≠ 0 := ne_of_gt ht
  constructor
  · simp only [Analytics.getCaloriesColor, specClassifyCalories, jsDiv,
      jsMul100, jsAbs, jsLe, if_neg hm0, if_neg ht0, decide_eq_true_eq]
    split_ifs <;> rfl
  · intro hmc
    simp only [Totals.getCalorieColor, specClassifyCalories, Option.getD,
      if_neg hm0, if_neg ht0, if_neg hmc]
    split_ifs <;> rfl

/-- C7 (amended) witness, at the spec's own deficit-sign example:
`measured = 1900, target = 1800, maintenance = 2200` is non-aligned with
`percentDiff ≈ 5.6% > 5%`, so both sites render the `off_track` tier. -/
theorem C7_amended_witness :
    Analytics.getCaloriesColor 1900 1800 2200
      = tierClass (specClassifyCalories 1900 1800 2200) ∧
    Totals.getCalorieColor 1900 1800 (some 2200)
      = tierHex (specClassifyCalories 1900 1800 2200) ∧
    specClassifyCalories 1900 1800 2200 = Tier.off_track :=
  ⟨(C7_amended 1900 1800 2200 (by norm_num) (by norm_num)).1,
   (C7_amended 1900 1800 2200 (by norm_num) (by norm_num)).2 (by norm_num),
   by norm_num [specClassifyCalories, abs_le]⟩

/-- C3: the claim says every week-navigation call site rejects a forward
step once the new week start would exceed the week start of the app date
under the 3 AM rule.  The dashboard call site violates this: its local
`getTodayDate` uses `toISOString` with no cutoff, so at local Monday
2024-01-15 01:00 (day 19737, minute 60, offset 0) with selected week start
Monday 2024-01-08 (19730), the forward step is accepted and lands on
2024-01-15 — beyond the rule's bound 2024-01-08, the week start of app date
Sunday 2024-01-14.  The analytics call site rejects the same step. -/
theorem C3_dashboard_forward_step_accepted :
    Dashboard.navigateWeek ⟨19737, 60⟩ 19730 1 = 19737 ∧
    ruleWeekBound ⟨19737, 60⟩ = 19730 ∧
    formatYMD 19737 = "2024-01-15" ∧
    formatYMD 19736 = "2024-01-14" ∧
    formatYMD 19730 = "2024-01-08" ∧
    jsStrLt (formatYMD (ruleWeekBound ⟨19737, 60⟩)) (formatYMD 19737) = true ∧
    Analytics.navigateWeek ⟨19737, 60⟩ 19730 1 = 19730 := by
  decide

/-- C4: `daysLogged` counts exactly the days of the week whose fetched
entry list is non-empty, for every fetched mapping; and in a week where
only today (day `k` of the week) has entries, `daysLogged = 1` while
`averages.calories = 0` — today is excluded from the trailing average even
though it is counted as logged. -/
theorem C4_daysLogged_average_exclusion (weekStart : ℤ)
    (targetCalories maintenanceCalories : ℚ) (k : ℕ) (es : List FoodEntry)
    (allData : String → Option (List FoodEntry)) (hk : k < 7)
    (hes : allData (formatYMD (weekStart + k)) = some es) (hne : es ≠ [])
    (hother : ∀ i : ℕ, i < 7 → i ≠ k → allData (formatYMD (weekStart + i)) = none) :
    (∀ allData2 : String → Option (List FoodEntry),
      (getWeeklyStats weekStart targetCalories maintenanceCalories
          (formatYMD (weekStart + k)) allData2).daysLogged =
        ((List.range 7).filter fun i : ℕ =>
          decide ((allData2 (formatYMD (weekStart + (i : ℤ)))).getD [] ≠ [])).length) ∧
    (getWeeklyStats weekStart targetCalories maintenanceCalories
        (formatYMD (weekStart + k)) allData).daysLogged = 1 ∧
    (getWeeklyStats weekStart targetCalories maintenanceCalories
        (formatYMD (weekStart + k)) allData).averages.calories = 0 := by
  have hpos : 0 < es.length := List.length_pos.mpr hne
  refine ⟨?_, ?_, ?_⟩
  · intro allData2
    simp only [getWeeklyStats, buildDailyData]
    rw [List.countP_map, List.countP_eq_length_filter]
    refine congrArg List.length (List.filter_congr ?_)
    intro i _
    simp [Function.comp, List.length_pos]
  · simp only [getWeeklyStats, buildDailyData]
    rw [List.countP_map]
    have hcount : List.countP (fun i : ℕ => i == k) (List.range 7) = 1 :=
      List.count_eq_one_of_mem (List.nodup_range 7) (List.mem_range.mpr hk)
    rw [← hcount]
    refine List.countP_congr ?_
    intro i hi
    rw [List.mem_range] at hi
    by_cases hik : i = k
    · subst hik
      simp [Function.comp, hes, hpos]
    · simp [Function.comp, hother i hi hik, hik]
  · have hcompleted :
        completedDaysWithFood weekStart (formatYMD (weekStart + k)) allData = [] := by
      rw [completedDaysWithFood, List.filter_eq_nil_iff]
      intro day hday
      rw [buildDailyData, List.mem_map] at hday
      obtain ⟨i, hi, rfl⟩ := hday
      rw [List.mem_range] at hi
      by_cases hik : i = k
      · subst hik
        simp [jsStrLt_self]
      · simp [hother i hi hik, dayTotals]
    rw [(getWeeklyStats_no_completed weekStart targetCalories maintenanceCalories
      (formatYMD (weekStart + k)) allData hcompleted).1]

/-- C4 witness: the week of January 1–7, 2024 with today = January 2 and a
single entry logged on January 2 only. -/
theorem C4_daysLogged_average_exclusion_witness :
    (getWeeklyStats 19723 1700 2000 "2024-01-02" sampleWeekData).daysLogged = 1 ∧
    (getWeeklyStats 19723 1700 2000 "2024-01-02" sampleWeekData).averages.calories = 0 :=
  ⟨(C4_daysLogged_average_exclusion 19723 1700 2000 1 [⟨some 1800, some 100⟩]
      sampleWeekData (by norm_num) (by decide) (by decide) (by decide)).2.1,
   (C4_daysLogged_average_exclusion 19723 1700 2000 1 [⟨some 1800, some 100⟩]
      sampleWeekData (by norm_num) (by decide) (by decide) (by decide)).2.2⟩

/-- C5: on every valid local date, `getAppDate` returns the local calendar
date formatted `YYYY-MM-DD` when the local hour is at least 3, and the
local calendar date minus one day (with month/year rollover) when the hour
is in `[0, 3)`. -/
theorem C5_getAppDate_cutoff (d : LocalDate) (h : d.Valid) :
    getAppDate d =
      if 3 ≤ d.hour then formatDateToString d
      else formatDateToString (prevCivilDay d) := by
  obtain ⟨hm1, hm12, hd1, hdlen, hh0, hh23⟩ := h
  unfold getAppDate jsSetDate prevCivilDay
  split_ifs with h1 h2 h3 h4 h5 h6 h7 h8 <;> first
    | rfl
    | omega

/-- C5 witness: January 1, 2024 at 02:00 local time is a valid date below
the cutoff, and the app date rolls back across the year boundary to
December 31, 2023. -/
theorem C5_getAppDate_cutoff_witness :
    getAppDate ⟨2024, 1, 1, 2⟩ = "2023-12-31" :=
  (C5_getAppDate_cutoff ⟨2024, 1, 1, 2⟩ (by decide)).trans (by decide)

/-- C6: whenever at least one completed-and-nonzero day exists, the daily
deficit is the calorie average minus `maintenanceCalories` (not the target),
and the weekly deficit is the daily deficit times the number of days counted
in the average (not times 7). -/
theorem C6_deficit_formula (weekStart : ℤ) (targetCalories maintenanceCalories : ℚ)
    (today : String) (allData : String → Option (List FoodEntry))
    (h : 0 < (completedDaysWithFood weekStart today allData).length) :
    (getWeeklyStats weekStart targetCalories maintenanceCalories today allData).deficit.daily =
      (getWeeklyStats weekStart targetCalories maintenanceCalories today allData).averages.calories
        - maintenanceCalories ∧
    (getWeeklyStats weekStart targetCalories maintenanceCalories today allData).deficit.weekly =
      (getWeeklyStats weekStart targetCalories maintenanceCalories today allData).deficit.daily
        * ((completedDaysWithFood weekStart today allData).length : ℚ) := by
  constructor <;> simp [getWeeklyStats, if_pos h]

/-- C6 witness: the week of January 1–7, 2024 with one logged day
(January 2), viewed from January 5: the completed count is positive and
both deficit equations hold there. -/
theorem C6_deficit_formula_witness :
    (getWeeklyStats 19723 1700 2000 "2024-01-05" sampleWeekData).deficit.daily =
      (getWeeklyStats 19723 1700 2000 "2024-01-05" sampleWeekData).averages.calories - 2000 ∧
    (getWeeklyStats 19723 1700 2000 "2024-01-05" sampleWeekData).deficit.weekly =
      (getWeeklyStats 19723 1700 2000 "2024-01-05" sampleWeekData).deficit.daily
        * ((completedDaysWithFood 19723 "2024-01-05" sampleWeekData).length : ℚ) :=
  C6_deficit_formula 19723 1700 2000 "2024-01-05" sampleWeekData sampleWeekData_completed_pos

/-- C8: `getWeekStart` is idempotent, and always returns a Monday on the
same or an earlier day, with the time of day reset to midnight. -/
theorem C8_getWeekStart_idempotent_monday (d : JsDate) :
    getWeekStart (getWeekStart d) = getWeekStart d ∧
    jsGetDay (getWeekStart d) = 1 ∧
    (getWeekStart d).days ≤ d.days ∧
    (getWeekStart d).msOfDay = 0 := by
  simp only [getWeekStart, startOfWeek, jsGetDay, JsDate.mk.injEq]
  refine ⟨⟨?_, trivial⟩, ?_, ?_, trivial⟩ <;> omega

/-- C9: the engine's output is independent of the `targetCalories`
argument — with every other input fixed, any two target values give
identical `WeeklyStats`.  (The parameter is declared but never read.) -/
theorem C9_target_noninterference (weekStart : ℤ) (t1 t2 maintenanceCalories : ℚ)
    (today : String) (allData : String → Option (List FoodEntry)) :
    getWeeklyStats weekStart t1 maintenanceCalories today allData =
      getWeeklyStats weekStart t2 maintenanceCalories today allData :=
  rfl

/-- C10: `dailyData` always has exactly 7 entries, dated `weekStart`
through `weekStart + 6` in order; a date absent from the fetched mapping
yields a zero-calorie, zero-protein aggregate with an empty entry list; and
the whole output depends on the mapping only at those 7 dates — two
mappings that agree there give identical results. -/
theorem C10_dailyData_shape (weekStart : ℤ) (targetCalories maintenanceCalories : ℚ)
    (today : String) (allData allData2 : String → Option (List FoodEntry))
    (hagree : ∀ i : ℕ, i < 7 →
      allData (formatYMD (weekStart + (i : ℤ))) = allData2 (formatYMD (weekStart + (i : ℤ)))) :
    (getWeeklyStats weekStart targetCalories maintenanceCalories today allData).dailyData.length
        = 7 ∧
    (getWeeklyStats weekStart targetCalories maintenanceCalories today allData).dailyData.map
        DayData.date
      = ((List.range 7).map fun i : ℕ => formatYMD (weekStart + (i : ℤ))) ∧
    (∀ i : ℕ, i < 7 → allData (formatYMD (weekStart + (i : ℤ))) = none →
      (getWeeklyStats weekStart targetCalories maintenanceCalories today allData).dailyData[i]? =
        some ⟨formatYMD (weekStart + (i : ℤ)), 0, 0, []⟩) ∧
    getWeeklyStats weekStart targetCalories maintenanceCalories today allData =
      getWeeklyStats weekStart targetCalories maintenanceCalories today allData2 := by
  refine ⟨?_, ?_, ?_, ?_⟩
  · simp [getWeeklyStats, buildDailyData]
  · simp only [getWeeklyStats, buildDailyData, List.map_map]
    rfl
  · intro i hi hnone
    simp [getWeeklyStats, buildDailyData, List.getElem?_map, List.getElem?_range hi,
      hnone, dayTotals]
  · have hb : buildDailyData weekStart allData = buildDailyData weekStart allData2 := by
      refine List.map_congr_left ?_
      intro i hi
      rw [List.mem_range] at hi
      simp [hagree i hi]
    simp only [getWeeklyStats, completedDaysWithFood, hb]

/-- C10 witness: the empty-week instance of the shape invariant, together
with insensitivity to a mapping that differs only outside the week (an
entry dated December 25, 2023). -/
theorem C10_dailyData_shape_witness :
    (getWeeklyStats 19723 1700 2000 "2024-01-05" (fun _ => none)).dailyData.length = 7 ∧
    getWeeklyStats 19723 1700 2000 "2024-01-05" (fun _ => none) =
      getWeeklyStats 19723 1700 2000 "2024-01-05"
        (fun s => if s = "2023-12-25" then some [⟨some 900, some 40⟩] else none) :=
  ⟨(C10_dailyData_shape 19723 1700 2000 "2024-01-05" (fun _ => none)
      (fun s => if s = "2023-12-25" then some [⟨some 900, some 40⟩] else none)
      (by decide)).1,
   (C10_dailyData_shape 19723 1700 2000 "2024-01-05" (fun _ => none)
      (fun s => if s = "2023-12-25" then some [⟨some 900, some 40⟩] else none)
      (by decide)).2.2.2⟩
